import Mathlib

/-
Verification of the personal-ai repository: a shallow embedding of
`src/core/config_manager.py`, `src/core/ai_engine.py` and
`src/api/server.py` into Lean, together with theorems settling the
behavioural claims about configuration validation, dotted-path access,
the chat fallback system and the API handlers.

Python values stored in the YAML configuration tree are modelled by the
inductive type `JVal`: numbers (Python `int`/`float`, with `bool`
comparing as 0/1 exactly as in Python), strings, booleans, `None`, and
nested dictionaries modelled as association lists in insertion order.
-/

set_option autoImplicit false

namespace PersonalAI

/-- Values of the configuration tree: Python scalars and nested dicts.
Dictionaries are association lists in insertion order (Python dicts have
no duplicate keys). -/
inductive JVal where
  | num : ℚ → JVal
  | str : String → JVal
  | bool : Bool → JVal
  | null : JVal
  | obj : List (String × JVal) → JVal

/-- Python dict lookup `d[k]` on an association list: the first binding
of the key, if any. -/
def lookupKey : List (String × JVal) → String → Option JVal
  | [], _ => none
  | (k, v) :: rest, key => if k = key then some v else lookupKey rest key

/-- Python dict assignment `d[k] = v`: replace the binding in place if the
key is present, otherwise append it (insertion order). -/
def setKey : List (String × JVal) → String → JVal → List (String × JVal)
  | [], key, v => [(key, v)]
  | (k, w) :: rest, key, v =>
      if k = key then (k, v) :: rest else (k, w) :: setKey rest key v

/-- Python dict deletion `d.pop(k, None)`: drop the binding of the key. -/
def removeKey (l : List (String × JVal)) (key : String) : List (String × JVal) :=
  l.filter (fun p => !(p.1 == key))

/-- Python `s.split(sep)` for a one-character separator, on the character
list of the string: `"".split(".") = [""]`, `"a..b".split(".") =
["a", "", "b"]`. -/
def splitOnChar (sep : Char) : List Char → List (List Char)
  | [] => [[]]
  | c :: rest =>
      let r := splitOnChar sep rest
      if c = sep then [] :: r
      else
        match r with
        | [] => [[c]]
        | h :: t => (c :: h) :: t

/-- The key list of a dotted path: `key_path.split('.')` from
`ConfigManager.get_value` / `set_value`. -/
def keysOf (key_path : String) : List String :=
  (splitOnChar '.' key_path.toList).map (fun cs => String.mk cs)

/-- The loop of `ConfigManager.get_value`: walk `value = value[key]` over
the keys; a missing key (`KeyError`) or indexing a non-dict (`TypeError`)
is caught and yields `none`. -/
def getFromVal : JVal → List String → Option JVal
  | v, [] => some v
  | JVal.obj l, k :: ks =>
      match lookupKey l k with
      | some v => getFromVal v ks
      | none => none
  | _, _ :: _ => none

/-- `ConfigManager.get_value(key_path, default)` on a loaded configuration
dictionary `cfg`. -/
def get_value (cfg : List (String × JVal)) (key_path : String) (default : JVal) : JVal :=
  (getFromVal (JVal.obj cfg) (keysOf key_path)).getD default

/-- The loop of `ConfigManager.set_value`: descend through the parent
keys, creating `{}` for a missing key; descending into an existing
non-dict value raises an uncaught `TypeError` (modelled as `none`; in
that case the Python loop has not yet mutated anything, since creations
only happen below the first missing key, after which every key is
missing). -/
def setKeys : List (String × JVal) → List String → JVal → Option (List (String × JVal))
  | _, [], _ => none
  | l, [k], v => some (setKey l k v)
  | l, k :: k2 :: ks, v =>
      match lookupKey l k with
      | some (JVal.obj m) =>
          (setKeys m (k2 :: ks) v).map (fun m2 => setKey l k (JVal.obj m2))
      | some _ => none
      | none =>
          (setKeys [] (k2 :: ks) v).map (fun m2 => setKey l k (JVal.obj m2))

/-- `ConfigManager.set_value(key_path, value)`: `some` of the updated
configuration, or `none` when the Python code raises `TypeError`. -/
def set_value (cfg : List (String × JVal)) (key_path : String) (v : JVal) :
    Option (List (String × JVal)) :=
  setKeys cfg (keysOf key_path) v

/-- The path condition of the set/get round-trip claim: every proper
prefix of the key list addresses either a missing key or a nested
dictionary (and the path is non-empty, as `split` always is). -/
def validPathB : List (String × JVal) → List String → Bool
  | _, [] => false
  | _, [_] => true
  | l, k :: k2 :: ks =>
      match lookupKey l k with
      | some (JVal.obj m) => validPathB m (k2 :: ks)
      | some _ => false
      | none => validPathB [] (k2 :: ks)

/-- A `JVal` interpreted as a number the way Python comparison does:
`bool` is an `int` subclass comparing as 0/1; strings, `None` and dicts
raise `TypeError` when compared to a number. -/
def asNum : JVal → Option ℚ
  | JVal.num q => some q
  | JVal.bool b => some (if b then 1 else 0)
  | _ => none

/-- Two-level access `cfg[a][b]` as used by `validate_config`:
`none` models the uncaught `KeyError`/`TypeError`. -/
def getPath2 (cfg : List (String × JVal)) (a b : String) : Option JVal :=
  match lookupKey cfg a with
  | some (JVal.obj l) => lookupKey l b
  | _ => none

/-- The `required_sections` list of `ConfigManager.validate_config`. -/
def required_sections : List String :=
  ["model", "inference", "paths", "api", "logging"]

/-- The section loop of `validate_config`: every required section present
at the top level. -/
def sectionsPresent (cfg : List (String × JVal)) : Bool :=
  required_sections.all (fun s => (lookupKey cfg s).isSome)

/-- The value of `model.temperature` as the number Python compares. -/
def tempOf (cfg : List (String × JVal)) : Option ℚ :=
  (getPath2 cfg "model" "temperature").bind asNum

/-- The value of `api.port` as the number Python compares. -/
def portOf (cfg : List (String × JVal)) : Option ℚ :=
  (getPath2 cfg "api" "port").bind asNum

/-- `ConfigManager.validate_config`: `some b` when the Python method
returns `b`, `none` when it raises (missing `temperature`/`port` key, or
comparing a non-numeric value). The section check runs first; the
temperature check runs before the port is even read. -/
def validate_config (cfg : List (String × JVal)) : Option Bool :=
  if sectionsPresent cfg then
    (tempOf cfg).bind (fun t =>
      if t < 0 ∨ t > 2 then some false
      else
        (portOf cfg).bind (fun p =>
          if p < 1 ∨ p > 65535 then some false
          else some true))
  else some false

/-! ## AI engine (`src/core/ai_engine.py`) -/

/-- The default-whitespace set of Python `str.strip()` restricted to the
ASCII whitespace characters. -/
def pyIsSpace (c : Char) : Bool :=
  c == ' ' || c == '\t' || c == '\n' || c == '\r' || c == '\x0b' || c == '\x0c'

/-- Python `s.strip()` on a character list: drop whitespace from both
ends. -/
def stripList (s : List Char) : List Char :=
  ((s.dropWhile pyIsSpace).reverse.dropWhile pyIsSpace).reverse

/-- Python `s.strip()`. -/
def pyStrip (s : String) : String :=
  String.mk (stripList s.toList)

/-- Python `s.lower()` (ASCII letters; the greeting keywords are ASCII). -/
def pyLower (s : String) : String :=
  String.mk (s.toList.map Char.toLower)

/-- Does `needle` occur at the start of `hay`? (helper for Python
substring membership). -/
def startsWithL : List Char → List Char → Bool
  | [], _ => true
  | _ :: _, [] => false
  | a :: as, b :: bs => a == b && startsWithL as bs

/-- Does `needle` occur anywhere in `hay`? -/
def hasSubstr (needle : List Char) : List Char → Bool
  | [] => needle.isEmpty
  | c :: t => startsWithL needle (c :: t) || hasSubstr needle t

/-- Python substring membership `needle in hay`. -/
def strContains (hay needle : String) : Bool :=
  hasSubstr needle.toList hay.toList

/-- Outcome of a call into the external model-inference library
(`tokenizer.encode` / `model.generate` / `tokenizer.decode`): a decoded
output string, or a raised exception with its message. -/
inductive ModelOutcome where
  | ok : String → ModelOutcome
  | exc : String → ModelOutcome

/-- The `AIEngine` state after `__init__`, together with the oracles for
the external calls it makes: `modelLoaded` is `model is not None`
(`_load_model` either loads both model and tokenizer or calls
`_setup_fallback_system`, which sets `model = None` and installs
`fallback_responses`); `modelGen` is the external generation pipeline,
taking the configured temperature and `max_new_tokens` values and the
full prompt; `randomIdx` models the index drawn by `random.choice`;
`paramCount` models `sum(p.numel() for p in model.parameters())`;
`emptyCacheExc` models whether `torch.cuda.empty_cache()` raises; `now`
models `time.time()`. -/
structure Engine where
  config : List (String × JVal)
  modelLoaded : Bool
  device : String
  paramCount : ℚ
  randomIdx : Nat
  now : ℚ
  modelGen : JVal → JVal → String → ModelOutcome
  emptyCacheExc : Option String

/-- The `fallback_responses` list installed by `_setup_fallback_system`. -/
def fallback_responses : List String :=
  ["I\x27m currently in development mode. How can I help you today?",
   "I\x27m learning and growing! What would you like to discuss?",
   "I\x27m here to assist you. What\x27s on your mind?",
   "Thank you for your patience as I develop my capabilities."]

/-- `AIEngine._fallback_response`: keyword matching on the lowercased
input, else `random.choice(self.fallback_responses)` (the drawn index is
the engine's `randomIdx` oracle). -/
def fallback_response (eng : Engine) (user_input : String) : String :=
  let user_lower := pyLower user_input
  if strContains user_lower "hello" || strContains user_lower "hi" ||
      strContains user_lower "hey" then
    "Hello! I\x27m your personal AI assistant. How can I help you today?"
  else if strContains user_lower "how are you" ||
      strContains user_lower "how do you feel" then
    "I\x27m doing well, thank you for asking! I\x27m here and ready to help."
  else if strContains user_lower "what can you do" ||
      strContains user_lower "help" || strContains user_lower "capabilities" then
    "I\x27m currently in development, but I\x27m designed to be your personal AI assistant. I can chat with you and help with various tasks as I continue to learn!"
  else
    fallback_responses.getD (eng.randomIdx % fallback_responses.length) ""

/-- Python `l[-n:]`. -/
def lastN {α : Type} (n : Nat) (l : List α) : List α :=
  l.drop (l.length - n)

/-- The configuration reads of `_generate_model_response`
(`model.max_length`, `inference.max_new_tokens`, `model.temperature`,
`model.top_p`, `inference.do_sample`): all must be present, else the
method raises `KeyError`; the generation call receives the configured
temperature and `max_new_tokens`. -/
def genCfgReads (cfg : List (String × JVal)) : Option (JVal × JVal) :=
  match getPath2 cfg "model" "max_length", getPath2 cfg "inference" "max_new_tokens",
      getPath2 cfg "model" "temperature", getPath2 cfg "model" "top_p",
      getPath2 cfg "inference" "do_sample" with
  | some _, some mnt, some t, some _, some _ => some (t, mnt)
  | _, _, _, _, _ => none

/-- `AIEngine._generate_model_response`: build the full prompt from the
last five history entries, read the generation settings from the
configuration, call the external pipeline, strip the decoded output, and
substitute a fixed sentence for an empty result; `Except.error` is a
raised exception. -/
def generate_model_response (eng : Engine) (user_input : String)
    (conversation_history : List String) : Except String String :=
  let full_input :=
    match conversation_history with
    | [] => user_input
    | _ :: _ =>
        String.intercalate " " (lastN 5 conversation_history) ++ " " ++ user_input
  match genCfgReads eng.config with
  | none => Except.error "KeyError"
  | some (t, mnt) =>
      match eng.modelGen t mnt full_input with
      | ModelOutcome.exc m => Except.error m
      | ModelOutcome.ok out =>
          let response := pyStrip out
          Except.ok (if response.isEmpty then "I\x27m not sure how to respond to that."
                     else response)

/-- `AIEngine.generate_response`: the empty/whitespace guard, then the
fallback branch when the model is `None`, then the model branch inside
`try`, whose exceptions become a fixed apology string. -/
def generate_response (eng : Engine) (user_input : String)
    (conversation_history : List String) : String :=
  if (stripList user_input.toList).isEmpty then
    "I didn\x27t catch that. Could you please repeat?"
  else if eng.modelLoaded = false then
    fallback_response eng user_input
  else
    match generate_model_response eng user_input conversation_history with
    | Except.ok s => s
    | Except.error _ => "I apologize, but I encountered an error. Please try again."

/-- `AIEngine.get_model_info`: the fixed fallback dictionary when the
model is `None`, else the loaded-model dictionary. -/
def get_model_info (eng : Engine) : List (String × JVal) :=
  if eng.modelLoaded = false then
    [("status", JVal.str "fallback"), ("model_name", JVal.str "none")]
  else
    [("status", JVal.str "loaded"),
     ("model_name", (getPath2 eng.config "model" "name").getD JVal.null),
     ("device", JVal.str eng.device),
     ("parameters", JVal.num eng.paramCount)]

/-- `AIEngine.clear_cache`: calls `torch.cuda.empty_cache()` only on the
`cuda` device; `Except.error` is the external call raising. -/
def clear_cache (eng : Engine) : Except String Unit :=
  if eng.device == "cuda" then
    match eng.emptyCacheExc with
    | some m => Except.error m
    | none => Except.ok ()
  else Except.ok ()

/-! ## API server (`src/api/server.py`) -/

/-- The `ChatMessage` request model. -/
structure ChatMessage where
  role : String
  content : String
  timestamp : Option ℚ := none

/-- The `ChatRequest` request model: `temperature` and `max_tokens` are
accepted but, as the claims discuss, never forwarded to the engine. -/
structure ChatRequest where
  message : String
  conversation_history : List ChatMessage := []
  temperature : Option ℚ := none
  max_tokens : Option ℚ := none

/-- The `ChatResponse` response model. -/
structure ChatResponse where
  response : String
  timestamp : ℚ
  model_info : List (String × JVal)

/-- What an API handler delivers: a successful body, or
`HTTPException(status_code=500, detail=...)`. -/
inductive HandlerResult (α : Type) where
  | ok : α → HandlerResult α
  | http500 : String → HandlerResult α

/-- The `try/except Exception` wrapper common to the four handlers: a
raised exception becomes an HTTP 500 whose detail is `str(e)`. -/
def handle {α : Type} (body : Except String α) : HandlerResult α :=
  match body with
  | Except.ok a => HandlerResult.ok a
  | Except.error e => HandlerResult.http500 e

/-- The history lines built by the `chat` handler from the last ten
request messages: `f"{msg.role}: {msg.content}"`. -/
def historyLines (msgs : List ChatMessage) : List String :=
  (lastN 10 msgs).map (fun m => m.role ++ ": " ++ m.content)

/-- The body of the `POST /chat` handler. -/
def chatBody (eng : Engine) (req : ChatRequest) : Except String ChatResponse :=
  let history := historyLines req.conversation_history
  let response := generate_response eng req.message history
  Except.ok { response := response, timestamp := eng.now,
              model_info := get_model_info eng }

/-- The `POST /chat` handler. -/
def chat_endpoint (eng : Engine) (req : ChatRequest) : HandlerResult ChatResponse :=
  handle (chatBody eng req)

/-- The `GET /model/info` handler. -/
def model_info_endpoint (eng : Engine) : HandlerResult (List (String × JVal)) :=
  handle (Except.ok (get_model_info eng))

/-- The `POST /model/clear-cache` handler. -/
def clear_cache_endpoint (eng : Engine) : HandlerResult (List (String × JVal)) :=
  handle ((clear_cache eng).map
    (fun _ => [("status", JVal.str "success"), ("message", JVal.str "Cache cleared")]))

/-- The `GET /config` handler: take a shallow copy of the stored
configuration, `pop` the `privacy` section from the copy, and return it;
the engine's stored configuration is untouched (the `pop` acts on the
copy), which the paired return value records. -/
def config_endpoint (eng : Engine) :
    HandlerResult (List (String × JVal)) × List (String × JVal) :=
  (handle (Except.ok (removeKey eng.config "privacy")), eng.config)

/-! ## Concrete fixtures used by witnesses and counterexamples -/

/-- A configuration with exactly the five sections `validate_config`
requires, a valid temperature and a valid port. -/
def validCfg : List (String × JVal) :=
  [("model", JVal.obj [("temperature", JVal.num 1), ("max_length", JVal.num 1024),
      ("top_p", JVal.num 1), ("name", JVal.str "microsoft/DialoGPT-small"),
      ("device", JVal.str "cpu")]),
   ("inference", JVal.obj [("max_new_tokens", JVal.num 128), ("do_sample", JVal.bool true)]),
   ("paths", JVal.obj [("data_dir", JVal.str "./data")]),
   ("api", JVal.obj [("port", JVal.num 8000)]),
   ("logging", JVal.obj [("level", JVal.str "INFO")])]

/-- An engine whose model loading failed (`model is None`). -/
def wEngine : Engine :=
  { config := validCfg, modelLoaded := false, device := "cpu", paramCount := 0,
    randomIdx := 0, now := 0,
    modelGen := fun _ _ _ => ModelOutcome.ok "model output",
    emptyCacheExc := none }

/-- An engine with a loaded model whose external generation pipeline
produces a fixed non-greeting sentence. -/
def loadedEngine : Engine :=
  { config := validCfg, modelLoaded := true, device := "cpu", paramCount := 355,
    randomIdx := 0, now := 0,
    modelGen := fun _ _ _ => ModelOutcome.ok "The weather is nice.",
    emptyCacheExc := none }

/-- An engine on the `cuda` device whose `torch.cuda.empty_cache()` call
raises. -/
def cudaEngine : Engine :=
  { config := validCfg, modelLoaded := true, device := "cuda", paramCount := 355,
    randomIdx := 0, now := 0,
    modelGen := fun _ _ _ => ModelOutcome.ok "ok",
    emptyCacheExc := some "CUDA error" }

/-- An engine whose stored configuration contains a `privacy` section. -/
def privEngine : Engine :=
  { wEngine with
    config := ("privacy", JVal.obj [("anonymize_logs", JVal.bool true)]) :: validCfg }

/-- A small configuration for the set/get round-trip witness. -/
def rtCfg : List (String × JVal) :=
  [("a", JVal.obj [("x", JVal.num 1)])]

/-! ## Helper lemmas -/

/-- Looking up a key just set by `setKey` yields the new value. -/
theorem lookupKey_setKey_self (l : List (String × JVal)) (k : String) (v : JVal) :
    lookupKey (setKey l k v) k = some v := by
  induction l with
  | nil => simp [setKey, lookupKey]
  | cons p rest ih =>
      obtain ⟨k0, w⟩ := p
      by_cases h : k0 = k
      · simp [setKey, h, lookupKey]
      · simp [setKey, h, lookupKey, ih]

/-- The core of the set/get round trip, at the level of key lists: under
the path condition, `setKeys` succeeds and `getFromVal` reads back the
value just written. -/
theorem setKeys_roundtrip (ks : List String) :
    ∀ (l : List (String × JVal)) (v : JVal), validPathB l ks = true →
      ∃ l2, setKeys l ks v = some l2 ∧ getFromVal (JVal.obj l2) ks = some v := by
  induction ks with
  | nil => intro l v h; simp [validPathB] at h
  | cons k rest ih =>
      intro l v h
      cases rest with
      | nil =>
          refine ⟨setKey l k v, ?_, ?_⟩
          · simp [setKeys]
          · simp [getFromVal, lookupKey_setKey_self]
      | cons k2 rest2 =>
          cases hl : lookupKey l k with
          | none =>
              have h' : validPathB [] (k2 :: rest2) = true := by
                simpa [validPathB, hl] using h
              obtain ⟨m2, hset, hget⟩ := ih [] v h'
              refine ⟨setKey l k (JVal.obj m2), ?_, ?_⟩
              · simp [setKeys, hl, hset]
              · simp only [getFromVal]
                rw [lookupKey_setKey_self]
                exact hget
          | some w =>
              cases w with
              | obj m =>
                  have h' : validPathB m (k2 :: rest2) = true := by
                    simpa [validPathB, hl] using h
                  obtain ⟨m2, hset, hget⟩ := ih m v h'
                  refine ⟨setKey l k (JVal.obj m2), ?_, ?_⟩
                  · simp [setKeys, hl, hset]
                  · simp only [getFromVal]
                    rw [lookupKey_setKey_self]
                    exact hget
              | num q => simp [validPathB, hl] at h
              | str s => simp [validPathB, hl] at h
              | bool b => simp [validPathB, hl] at h
              | null => simp [validPathB, hl] at h

/-- If every character of a list is whitespace, stripping leaves nothing. -/
theorem stripList_eq_nil {l : List Char} (h : ∀ c ∈ l, pyIsSpace c = true) :
    stripList l = [] := by
  have h1 : l.dropWhile pyIsSpace = [] := List.dropWhile_eq_nil_iff.mpr h
  simp [stripList, h1]

/-- If stripping leaves nothing, every character was whitespace. -/
theorem all_space_of_stripList_eq_nil {l : List Char} (h : stripList l = []) :
    ∀ c ∈ l, pyIsSpace c = true := by
  have h1 : (l.dropWhile pyIsSpace).reverse.dropWhile pyIsSpace = [] :=
    List.reverse_eq_nil_iff.mp (by simpa [stripList] using h)
  have h3 : ∀ c ∈ l.dropWhile pyIsSpace, pyIsSpace c = true := by
    intro c hc
    exact List.dropWhile_eq_nil_iff.mp h1 c (List.mem_reverse.mpr hc)
  intro c hc
  rw [← List.takeWhile_append_dropWhile pyIsSpace l] at hc
  rcases List.mem_append.mp hc with h4 | h4
  · exact List.mem_takeWhile_imp h4
  · exact h3 c h4

/-- The first character of a matched substring occurs in the haystack. -/
theorem head_mem_of_hasSubstr {n : Char} {ns hay : List Char}
    (h : hasSubstr (n :: ns) hay = true) : n ∈ hay := by
  induction hay with
  | nil => simp [hasSubstr] at h
  | cons c t ih =>
      simp [hasSubstr, startsWithL] at h
      rcases h with ⟨h1, _⟩ | h1
      · rw [h1]; exact List.mem_cons_self c t
      · exact List.mem_cons_of_mem c (ih (by simp [hasSubstr, startsWithL, h1]))

/-- A character that lowercases to `h` is not Python whitespace. -/
theorem not_space_of_toLower_h {c : Char} (h : Char.toLower c = 'h') :
    pyIsSpace c = false := by
  cases hpc : pyIsSpace c with
  | false => rfl
  | true =>
      exfalso
      simp [pyIsSpace] at hpc
      rcases hpc with ((((h1 | h1) | h1) | h1) | h1) | h1 <;> subst h1 <;>
        exact absurd h (by decide)

/-- A string whose lowercasing contains an `h` does not strip to empty. -/
theorem strip_ne_empty_of_contains_h {s : String}
    (h : ('h' : Char) ∈ (pyLower s).toList) :
    (stripList s.toList).isEmpty = false := by
  have h2 : ∃ c ∈ s.toList, Char.toLower c = 'h' := by
    simpa [pyLower] using h
  obtain ⟨c, hc, hlow⟩ := h2
  cases hnil : (stripList s.toList).isEmpty with
  | false => rfl
  | true =>
      exfalso
      have hsl : stripList s.toList = [] := by
        simpa using hnil
      have := all_space_of_stripList_eq_nil hsl c hc
      simp [not_space_of_toLower_h hlow] at this

/-- After removing a key, looking it up fails. -/
theorem lookupKey_removeKey_self (l : List (String × JVal)) (key : String) :
    lookupKey (removeKey l key) key = none := by
  induction l with
  | nil => rfl
  | cons p rest ih =>
      obtain ⟨k, v⟩ := p
      by_cases h : k = key
      · simpa [removeKey, List.filter_cons, h] using ih
      · simp only [removeKey, List.filter_cons] at ih ⊢
        simp [h, lookupKey, ih]

/-- Removing one key leaves every other lookup unchanged. -/
theorem lookupKey_removeKey_ne (l : List (String × JVal)) (key k : String)
    (hk : k ≠ key) : lookupKey (removeKey l key) k = lookupKey l k := by
  induction l with
  | nil => rfl
  | cons p rest ih =>
      obtain ⟨k0, v⟩ := p
      simp only [removeKey, List.filter_cons] at ih ⊢
      by_cases h : k0 = key
      · subst h
        have hk0 : k0 ≠ k := fun hh => hk hh.symm
        simp [lookupKey, hk0, ih]
      · by_cases h2 : k0 = k
        · simp [h, h2, lookupKey, hk]
        · simp [h, h2, lookupKey, ih]

/-! ## Claims -/

/-- Claim C1: `validate_config` returns `False` whenever the loaded
configuration's `model.temperature` is outside the range 0 to 2 or its
`api.port` is outside the range 1 to 65535, and returns `True` when every
required section is present and both values lie within those ranges
(boundaries included). The hypotheses say the two values are present and
compare as the numbers `t` and `p`. -/
theorem claim_C1_validate_ranges (cfg : List (String × JVal)) (t p : ℚ)
    (ht : tempOf cfg = some t) (hp : portOf cfg = some p) :
    ((t < 0 ∨ t > 2 ∨ p < 1 ∨ p > 65535) → validate_config cfg = some false) ∧
    ((sectionsPresent cfg = true ∧ 0 ≤ t ∧ t ≤ 2 ∧ 1 ≤ p ∧ p ≤ 65535) →
      validate_config cfg = some true) := by
  constructor
  · intro hout
    by_cases hs : sectionsPresent cfg
    · by_cases h1 : t < 0 ∨ t > 2
      · simp [validate_config, hs, ht, h1]
      · have h2 : p < 1 ∨ p > 65535 := by
          rcases hout with h | h | h | h
          · exact absurd (Or.inl h) h1
          · exact absurd (Or.inr h) h1
          · exact Or.inl h
          · exact Or.inr h
        simp [validate_config, hs, ht, hp, h1, h2]
    · simp [validate_config, hs]
  · rintro ⟨hs, h0, h2, hp1, hp65⟩
    have hn1 : ¬(t < 0 ∨ t > 2) := by
      push_neg
      exact ⟨h0, h2⟩
    have hn2 : ¬(p < 1 ∨ p > 65535) := by
      push_neg
      exact ⟨hp1, hp65⟩
    simp [validate_config, hs, ht, hp, hn1, hn2]

/-- Witness for C1 at the concrete configuration `validCfg`
(temperature 1, port 8000). -/
theorem claim_C1_witness : validate_config validCfg = some true :=
  (claim_C1_validate_ranges validCfg 1 8000 (by rfl) (by rfl)).2
    ⟨by rfl, by norm_num, by norm_num, by norm_num, by norm_num⟩

/-- Claim C2 counterexample: `validCfg` lacks the `training`, `data` and
`privacy` sections entirely, yet `validate_config` returns `True` — the
claim that a missing `training`/`data`/`privacy` section forces `False`
is wrong: the code only requires `model`, `inference`, `paths`, `api`
and `logging`. -/
theorem claim_C2_counterexample :
    (lookupKey validCfg "training").isNone = true ∧
    (lookupKey validCfg "data").isNone = true ∧
    (lookupKey validCfg "privacy").isNone = true ∧
    validate_config validCfg = some true :=
  ⟨rfl, rfl, rfl, rfl⟩

/-- Claim C2 as amended: `validate_config` returns `False` whenever any
of the five sections of its `required_sections` list — `model`,
`inference`, `paths`, `api`, `logging` — is missing from the top level;
`training`, `data` and `privacy` are not checked. -/
theorem claim_C2_required_sections (cfg : List (String × JVal)) (s : String)
    (hs : s ∈ required_sections) (hmiss : lookupKey cfg s = none) :
    validate_config cfg = some false := by
  have hsp : ¬(sectionsPresent cfg = true) := by
    intro hall
    have h1 := List.all_eq_true.mp hall s hs
    rw [hmiss] at h1
    simp at h1
  simp [validate_config, hsp]

/-- Witness for the amended C2: dropping the `api` section from
`validCfg` makes validation fail. -/
theorem claim_C2_witness : validate_config (removeKey validCfg "api") = some false :=
  claim_C2_required_sections (removeKey validCfg "api") "api"
    (by simp [required_sections]) (by rfl)

/-- Claim C3: on input that is empty or consists only of whitespace,
`generate_response` returns the fixed clarification message, for every
engine state (model loaded or not) and every conversation history. -/
theorem claim_C3_whitespace_input (eng : Engine) (input : String)
    (hist : List String) (h : input.toList.all pyIsSpace = true) :
    generate_response eng input hist =
      "I didn\x27t catch that. Could you please repeat?" := by
  have hnil : stripList input.data = [] :=
    stripList_eq_nil (List.all_eq_true.mp h)
  simp [generate_response, hnil]

/-- Witness for C3 at a concrete whitespace input and non-trivial
history. -/
theorem claim_C3_witness :
    generate_response loadedEngine "  \t\n " ["user: hello"] =
      "I didn\x27t catch that. Could you please repeat?" :=
  claim_C3_whitespace_input loadedEngine "  \t\n " ["user: hello"] (by rfl)

/-- Claim C4: when the engine's model is `None`, `get_model_info` returns
a dictionary whose `status` is `"fallback"` and whose `model_name` is
`"none"`, and the `GET /model/info` endpoint returns exactly that
dictionary. -/
theorem claim_C4_fallback_info (eng : Engine) (h : eng.modelLoaded = false) :
    lookupKey (get_model_info eng) "status" = some (JVal.str "fallback") ∧
    lookupKey (get_model_info eng) "model_name" = some (JVal.str "none") ∧
    model_info_endpoint eng = HandlerResult.ok (get_model_info eng) := by
  have hinfo : get_model_info eng =
      [("status", JVal.str "fallback"), ("model_name", JVal.str "none")] := by
    simp [get_model_info, h]
  refine ⟨?_, ?_, rfl⟩ <;> rw [hinfo] <;> rfl

/-- Witness for C4 at the concrete failed-load engine `wEngine`. -/
theorem claim_C4_witness :
    lookupKey (get_model_info wEngine) "status" = some (JVal.str "fallback") ∧
    lookupKey (get_model_info wEngine) "model_name" = some (JVal.str "none") ∧
    model_info_endpoint wEngine = HandlerResult.ok (get_model_info wEngine) :=
  claim_C4_fallback_info wEngine rfl

/-- Claim C5 counterexample: the claim says no part of the `POST /chat`
response marks it as coming from the fallback system, but with a failed
model load the chat response embeds `model_info` with
`status = "fallback"`, as this concrete request shows. -/
theorem claim_C5_counterexample :
    chat_endpoint wEngine { message := "hello" } = HandlerResult.ok
      { response := "Hello! I\x27m your personal AI assistant. How can I help you today?",
        timestamp := 0,
        model_info := [("status", JVal.str "fallback"), ("model_name", JVal.str "none")] } ∧
    lookupKey [(("status" : String), JVal.str "fallback"),
        (("model_name" : String), JVal.str "none")] "status" =
      some (JVal.str "fallback") :=
  ⟨rfl, rfl⟩

/-- Claim C5 as amended: when model loading has failed, every chat
request with non-whitespace message is answered by the keyword-matched
canned-response system (`_fallback_response`); the response text itself
carries no fallback marker, but the response is not indistinguishable
from model output: its `model_info` field has `status = "fallback"`. -/
theorem claim_C5_fallback_chat (eng : Engine) (req : ChatRequest)
    (hm : eng.modelLoaded = false)
    (hne : (stripList req.message.toList).isEmpty = false) :
    ∃ resp, chat_endpoint eng req = HandlerResult.ok resp ∧
      resp.response = fallback_response eng req.message ∧
      lookupKey resp.model_info "status" = some (JVal.str "fallback") := by
  refine ⟨_, rfl, ?_, ?_⟩
  · show generate_response eng req.message (historyLines req.conversation_history) =
      fallback_response eng req.message
    have hne' : (stripList req.message.data).isEmpty = false := hne
    simp [generate_response, hne', hm]
  · show lookupKey (get_model_info eng) "status" = some (JVal.str "fallback")
    have hinfo : get_model_info eng =
        [("status", JVal.str "fallback"), ("model_name", JVal.str "none")] := by
      simp [get_model_info, hm]
    rw [hinfo]
    rfl

/-- Witness for the amended C5 at a concrete non-greeting request. -/
theorem claim_C5_witness :
    ∃ resp, chat_endpoint wEngine { message := "thanks" } = HandlerResult.ok resp ∧
      resp.response = fallback_response wEngine "thanks" ∧
      lookupKey resp.model_info "status" = some (JVal.str "fallback") :=
  claim_C5_fallback_chat wEngine { message := "thanks" } rfl rfl

/-- Claim C6 counterexample: the claim quantifies over every engine
state, but when a model is loaded the greeting keywords are never
matched: the loaded engine answers `"hi"` with its model output, not the
fixed greeting. -/
theorem claim_C6_counterexample :
    strContains (pyLower "hi") "hi" = true ∧
    generate_response loadedEngine "hi" [] = "The weather is nice." ∧
    generate_response loadedEngine "hi" [] ≠
      "Hello! I\x27m your personal AI assistant. How can I help you today?" := by
  refine ⟨rfl, rfl, ?_⟩
  intro h
  exact absurd h (by decide)

/-- Claim C6 as amended: when the model is not loaded, every user input
whose lowercased text contains one of the substrings `hello`, `hi`,
`hey` is answered with the fixed greeting. -/
theorem claim_C6_greeting (eng : Engine) (input : String) (hist : List String)
    (hm : eng.modelLoaded = false)
    (hg : (strContains (pyLower input) "hello" || strContains (pyLower input) "hi" ||
        strContains (pyLower input) "hey") = true) :
    generate_response eng input hist =
      "Hello! I\x27m your personal AI assistant. How can I help you today?" := by
  have hh : ('h' : Char) ∈ (pyLower input).toList := by
    rcases Bool.or_eq_true _ _ |>.mp hg with hg1 | hg1
    · rcases Bool.or_eq_true _ _ |>.mp hg1 with hg2 | hg2
      · exact head_mem_of_hasSubstr hg2
      · exact head_mem_of_hasSubstr hg2
    · exact head_mem_of_hasSubstr hg1
  have hne : (stripList input.data).isEmpty = false :=
    strip_ne_empty_of_contains_h hh
  simp [generate_response, hne, hm, fallback_response, hg]

/-- Witness for the amended C6: an uppercase greeting on the failed-load
engine. -/
theorem claim_C6_witness :
    generate_response wEngine "HELLO there" [] =
      "Hello! I\x27m your personal AI assistant. How can I help you today?" :=
  claim_C6_greeting wEngine "HELLO there" [] rfl (by rfl)

/-- Claim C7: each of the four API handlers either returns its body's
result or converts the raised exception into an HTTP 500 whose detail is
the exception's message; none propagates an exception. The only external
call that can raise in this model is `torch.cuda.empty_cache()` inside
the clear-cache handler (everything inside `generate_response` is caught
there and turned into static fallback text, so the chat body never
raises). -/
theorem claim_C7_handlers_catch (eng : Engine) (req : ChatRequest) :
    (∃ r, chat_endpoint eng req = HandlerResult.ok r) ∧
    (∃ i, model_info_endpoint eng = HandlerResult.ok i) ∧
    (∀ m, eng.device = "cuda" → eng.emptyCacheExc = some m →
      clear_cache_endpoint eng = HandlerResult.http500 m) ∧
    ((eng.device = "cuda" → eng.emptyCacheExc = none) →
      clear_cache_endpoint eng = HandlerResult.ok
        [("status", JVal.str "success"), ("message", JVal.str "Cache cleared")]) ∧
    (∃ c2, config_endpoint eng = (HandlerResult.ok c2, eng.config)) := by
  refine ⟨⟨_, rfl⟩, ⟨_, rfl⟩, ?_, ?_, ⟨_, rfl⟩⟩
  · intro m hd he
    simp [clear_cache_endpoint, clear_cache, handle, hd, he, Except.map]
  · intro him
    by_cases hd : eng.device = "cuda"
    · simp [clear_cache_endpoint, clear_cache, handle, hd, him hd, Except.map]
    · simp [clear_cache_endpoint, clear_cache, handle, hd, Except.map]

/-- Witness for C7: the cuda engine whose cache-clearing call raises is
answered with an HTTP 500 carrying the exception message. -/
theorem claim_C7_witness :
    clear_cache_endpoint cudaEngine = HandlerResult.http500 "CUDA error" :=
  (claim_C7_handlers_catch cudaEngine { message := "x" }).2.2.1 "CUDA error" rfl rfl

/-- Claim C8: for every configuration and dotted path whose proper
prefixes each address a missing key or a nested dictionary, `set_value`
succeeds (creating intermediate dictionaries) and a following
`get_value` returns the written value for any default. -/
theorem claim_C8_set_get_roundtrip (cfg : List (String × JVal)) (p : String)
    (v d : JVal) (h : validPathB cfg (keysOf p) = true) :
    ∃ cfg2, set_value cfg p v = some cfg2 ∧ get_value cfg2 p d = v := by
  obtain ⟨l2, hset, hget⟩ := setKeys_roundtrip (keysOf p) cfg v h
  refine ⟨l2, hset, ?_⟩
  simp [get_value, hget]

/-- Witness for C8: writing through a two-level missing suffix under an
existing section. -/
theorem claim_C8_witness :
    ∃ cfg2, set_value rtCfg "a.b.c" (JVal.str "z") = some cfg2 ∧
      get_value cfg2 "a.b.c" JVal.null = JVal.str "z" :=
  claim_C8_set_get_roundtrip rtCfg "a.b.c" (JVal.str "z") JVal.null (by rfl)

/-- Claim C9: `GET /config` answers with the stored configuration minus
the top-level `privacy` section — `privacy` is absent from the response,
every other key reads the same — and serving the request leaves the
engine's stored configuration (privacy included) unchanged. -/
theorem claim_C9_config_endpoint (eng : Engine) :
    (config_endpoint eng).1 = HandlerResult.ok (removeKey eng.config "privacy") ∧
    lookupKey (removeKey eng.config "privacy") "privacy" = none ∧
    (∀ k, k ≠ "privacy" →
      lookupKey (removeKey eng.config "privacy") k = lookupKey eng.config k) ∧
    (config_endpoint eng).2 = eng.config :=
  ⟨rfl, lookupKey_removeKey_self eng.config "privacy",
   fun k hk => lookupKey_removeKey_ne eng.config "privacy" k hk, rfl⟩

/-- Witness for C9 on the engine that stores a `privacy` section. -/
theorem claim_C9_witness :
    lookupKey (removeKey privEngine.config "privacy") "model" =
      lookupKey privEngine.config "model" :=
  (claim_C9_config_endpoint privEngine).2.2.1 "model" (by decide)

/-- Claim C10: two chat requests that agree on `message` and
`conversation_history` — so in particular two requests differing only in
`temperature` and `max_tokens` — produce identical handler results for
the same engine state (same configuration, same randomness, same
external generator): the request fields are never forwarded, and the
generation settings handed to the model come from the configuration
(`model.temperature` and `inference.max_new_tokens`), as the second part
states about the values `generate_model_response` reads. -/
theorem claim_C10_request_params_ignored (eng : Engine) (r1 r2 : ChatRequest)
    (hmsg : r1.message = r2.message)
    (hhist : r1.conversation_history = r2.conversation_history) :
    chat_endpoint eng r1 = chat_endpoint eng r2 ∧
    (∀ t mnt, genCfgReads eng.config = some (t, mnt) →
      getPath2 eng.config "model" "temperature" = some t ∧
      getPath2 eng.config "inference" "max_new_tokens" = some mnt) := by
  constructor
  · simp [chat_endpoint, chatBody, hmsg, hhist]
  · intro t mnt h
    unfold genCfgReads at h
    split at h
    · rename_i heq1 heq2 heq3 heq4 heq5
      injection h with h2
      injection h2 with ht hmnt
      subst ht
      subst hmnt
      exact ⟨heq3, heq2⟩
    · exact absurd h (by simp)

/-- Witness for C10: two concrete requests differing only in
`temperature` and `max_tokens`. -/
theorem claim_C10_witness :
    chat_endpoint wEngine
      { message := "hello", conversation_history := [],
        temperature := some 1, max_tokens := some 5 } =
    chat_endpoint wEngine
      { message := "hello", conversation_history := [],
        temperature := some 2, max_tokens := none } :=
  (claim_C10_request_params_ignored wEngine
    { message := "hello", conversation_history := [],
      temperature := some 1, max_tokens := some 5 }
    { message := "hello", conversation_history := [],
      temperature := some 2, max_tokens := none } rfl rfl).1

end PersonalAI
